import Mathlib

/-!
Shallow embedding of the sprite-atlas and glyph-rendering core of
src/kitty/fonts.c and src/kitty/freetype.c.

Conventions used throughout:
* C `unsigned int` values are modelled as `Nat`; where the C code can wrap
  around, the increment is taken modulo `2 ^ 32` explicitly (`inc32`).
* C `size_t` values are modelled as `Nat`; additive expressions that can wrap
  are taken modulo `2 ^ 64` explicitly.
* Pointers that are only compared for identity (the `Font*` returned by
  `font_for_cell`) are modelled as abstract `Nat` identifiers.
* `calloc`/`malloc` are assumed to succeed: the out-of-memory path of the C
  code is not modelled.  The `int *error` out-parameter becomes an explicit
  `Nat` component of the result (0 when the C code leaves it untouched).
-/

namespace Kitty

/-- Modulus of the C type `unsigned int` (32-bit). -/
def U32 : Nat := 4294967296

/-- Modulus of the C type `size_t` (64-bit). -/
def U64 : Nat := 18446744073709551616

/-- `UINT16_MAX` as used by fonts.c. -/
def UINT16_MAX : Nat := 65535

/-- `x + 1` in C `unsigned int` arithmetic. -/
def inc32 (n : Nat) : Nat := (n + 1) % U32

/-- The `GPUSpriteTracker` struct of fonts.c (lines 28-38).
`max_array_len`, `max_texture_size`, `max_y` are `size_t`; the remaining
fields are `unsigned int`. -/
structure GPUSpriteTracker where
  max_array_len : Nat
  max_texture_size : Nat
  max_y : Nat
  x : Nat
  y : Nat
  z : Nat
  xnum : Nat
  ynum : Nat
deriving Repr, DecidableEq

/-- The static initializer of `sprite_tracker` (fonts.c lines 34-38):
`max_array_len = 1000`, `max_texture_size = 1000`, `max_y = 100`,
all other fields zero. -/
def sprite_tracker_init : GPUSpriteTracker :=
  { max_array_len := 1000, max_texture_size := 1000, max_y := 100,
    x := 0, y := 0, z := 0, xnum := 0, ynum := 0 }

/-- `sprite_tracker_set_limits` (fonts.c lines 62-66). -/
def sprite_tracker_set_limits (t : GPUSpriteTracker)
    (max_texture_size max_array_len : Nat) : GPUSpriteTracker :=
  { t with max_texture_size := max_texture_size, max_array_len := max_array_len }

/-- `do_increment` (fonts.c lines 68-79).  Returns the updated tracker
together with the value written to `*error` (0 when the C code leaves the
out-parameter untouched, 2 for atlas-full).  The C statement sequence
`x++; if (x >= xnum) { x = 0; y++; ynum = MIN(MAX(ynum, y + 1), max_y);
if (y >= max_y) { y = 0; z++; if (z >= MIN(UINT16_MAX, max_array_len))
*error = 2; } }` is rendered with the incremented values written out:
after `y++` the field `y` holds `inc32 t.y`, so the `y + 1` inside the
`MAX` is `inc32 (inc32 t.y)`. -/
def do_increment (t : GPUSpriteTracker) : GPUSpriteTracker × Nat :=
  if inc32 t.x ≥ t.xnum then
    if inc32 t.y ≥ t.max_y then
      ({ t with
          x := 0, y := 0, z := inc32 t.z,
          ynum := min (max t.ynum (inc32 (inc32 t.y))) t.max_y },
        if inc32 t.z ≥ min UINT16_MAX t.max_array_len then 2 else 0)
    else
      ({ t with
          x := 0, y := inc32 t.y,
          ynum := min (max t.ynum (inc32 (inc32 t.y))) t.max_y }, 0)
  else
    ({ t with x := inc32 t.x }, 0)

/-- `sprite_tracker_set_layout` (fonts.c lines 143-149).  Integer division;
callers guarantee nonzero cell sizes. -/
def sprite_tracker_set_layout (t : GPUSpriteTracker)
    (cell_width cell_height : Nat) : GPUSpriteTracker :=
  { t with
    xnum := min (max 1 (t.max_texture_size / cell_width)) UINT16_MAX,
    max_y := min (max 1 (t.max_texture_size / cell_height)) UINT16_MAX,
    ynum := 1, x := 0, y := 0, z := 0 }

/-- The `SpritePosition` struct of fonts.c (lines 19-25), without the
intrusive `next` pointer: chains are modelled as Lean lists. -/
structure SpritePosition where
  filled : Bool
  rendered : Bool
  is_second : Bool
  x : Nat
  y : Nat
  z : Nat
  glyph : Nat
  extra_glyphs : Nat
deriving Repr, DecidableEq

/-- A zeroed `SpritePosition`, as produced by static initialization of
`sprite_map` and by `calloc` for chain nodes. -/
def emptySp : SpritePosition :=
  { filled := false, rendered := false, is_second := false,
    x := 0, y := 0, z := 0, glyph := 0, extra_glyphs := 0 }

/-- A sprite cache: bucket index (the low 10 bits of the glyph) to the chain
of entries rooted at `sprite_map[idx]`.  The head entry is the first list
element; in C it always exists, so every bucket of a well-formed cache is a
nonempty list. -/
abbrev Cache : Type := Nat → List SpritePosition

/-- The sprite cache of a freshly zeroed `Font`. -/
def emptyCache : Cache := fun _ => [emptySp]

/-- Replace one bucket of a cache. -/
def updateBucket (c : Cache) (i : Nat) (b : List SpritePosition) : Cache :=
  fun j => if j = i then b else c j

/-- The triple comparison `s->glyph == glyph && s->extra_glyphs ==
extra_glyphs && s->is_second == is_second` from `sprite_position_for`. -/
def spMatches (s : SpritePosition) (glyph extra_glyphs : Nat)
    (is_second : Bool) : Bool :=
  s.glyph == glyph && s.extra_glyphs == extra_glyphs && s.is_second == is_second

/-- Claiming an unfilled slot (fonts.c lines 100-105): store the triple, set
`filled`/`rendered`, and copy the current tracker cursor into the slot. -/
def claimSlot (s : SpritePosition) (glyph extra_glyphs : Nat)
    (is_second : Bool) (t : GPUSpriteTracker) : SpritePosition :=
  { s with
    glyph := glyph, extra_glyphs := extra_glyphs, is_second := is_second,
    filled := true, rendered := false, x := t.x, y := t.y, z := t.z }

/-- The chain walk of `sprite_position_for` (fonts.c lines 84-107) on one
bucket.  Returns the updated chain, the `(x, y, z)` of the returned slot, the
updated tracker, and the error code.  The `LIKELY` fast path of line 87 is
the first iteration of the loop and needs no separate case.  A filled match
returns the stored coordinates without touching any state; the first
unfilled slot is claimed and `do_increment` is run; if the chain ends, a
fresh zeroed node is appended (`calloc` assumed to succeed) and claimed. -/
def spfWalk (glyph extra_glyphs : Nat) (is_second : Bool)
    (t : GPUSpriteTracker) :
    List SpritePosition →
      List SpritePosition × (Nat × Nat × Nat) × GPUSpriteTracker × Nat
  | [] =>
      ([claimSlot emptySp glyph extra_glyphs is_second t],
        (t.x, t.y, t.z), (do_increment t).1, (do_increment t).2)
  | s :: rest =>
      if s.filled then
        if spMatches s glyph extra_glyphs is_second then
          (s :: rest, (s.x, s.y, s.z), t, 0)
        else
          let r := spfWalk glyph extra_glyphs is_second t rest
          (s :: r.1, r.2)
      else
        (claimSlot s glyph extra_glyphs is_second t :: rest,
          (t.x, t.y, t.z), (do_increment t).1, (do_increment t).2)

/-- `glyph & 0x3ff` (fonts.c line 84). -/
def spIndex (glyph : Nat) : Nat := glyph % 1024

/-- `sprite_position_for` (fonts.c lines 82-108) for one font, as a function
of its cache and the global tracker.  Returns the updated cache, the
`(x, y, z)` of the returned slot, the updated tracker and the error code.
Note that, as in the C code, a slot is returned even when `do_increment`
reports atlas-full: the error code accompanies a successfully claimed slot. -/
def sprite_position_for (font : Cache) (glyph extra_glyphs : Nat)
    (is_second : Bool) (t : GPUSpriteTracker) :
    Cache × (Nat × Nat × Nat) × GPUSpriteTracker × Nat :=
  let idx := spIndex glyph
  let r := spfWalk glyph extra_glyphs is_second t (font idx)
  (updateBucket font idx r.1, r.2)

/-- The `CLEAR` macro of `clear_sprite_map` (fonts.c line 131). -/
def clearSp (s : SpritePosition) : SpritePosition :=
  { s with
    filled := false, rendered := false, glyph := 0, extra_glyphs := 0,
    x := 0, y := 0, z := 0, is_second := false }

/-- `clear_sprite_map` (fonts.c lines 129-141): every head and every chained
entry is reset; chain nodes are kept. -/
def clear_sprite_map (font : Cache) : Cache :=
  fun i => (font i).map clearSp

/-- A sequence of `sprite_position_for` calls with the given glyphs (all
with `extra_glyphs = 0`, `is_second = false`, as in
`test_sprite_position_for`), threading cache and tracker, and recording for
each call the returned `(x, y, z)` and the error code. -/
def runAllocs (font : Cache) (t : GPUSpriteTracker) :
    List Nat → Cache × GPUSpriteTracker × List ((Nat × Nat × Nat) × Nat)
  | [] => (font, t, [])
  | g :: gs =>
      let r := sprite_position_for font g 0 false t
      let rest := runAllocs r.1 r.2.2.1 gs
      (rest.1, rest.2.1, (r.2.1, r.2.2.2) :: rest.2.2)

/-- A sequence of `sprite_position_for` calls with arbitrary keys
`(glyph, extra_glyphs, is_second)`, threading cache and tracker. -/
def spf_run (c : Cache) (t : GPUSpriteTracker) :
    List (Nat × Nat × Bool) → Cache × GPUSpriteTracker
  | [] => (c, t)
  | k :: ks =>
      let r := sprite_position_for c k.1 k.2.1 k.2.2 t
      spf_run r.1 r.2.2.1 ks

/-- The chain walk for the given key reaches a filled matching entry whose
coordinates are `p`, passing only filled non-matching entries on the way. -/
def hitsAt (glyph extra_glyphs : Nat) (is_second : Bool)
    (p : Nat × Nat × Nat) : List SpritePosition → Prop
  | [] => False
  | s :: rest =>
      s.filled = true ∧
        ((spMatches s glyph extra_glyphs is_second = true ∧ p = (s.x, s.y, s.z)) ∨
          (spMatches s glyph extra_glyphs is_second = false ∧
            hitsAt glyph extra_glyphs is_second p rest))

/-- `hitsAt` on the bucket that the key hashes to. -/
def cacheHits (glyph extra_glyphs : Nat) (is_second : Bool)
    (p : Nat × Nat × Nat) (c : Cache) : Prop :=
  hitsAt glyph extra_glyphs is_second p (c (spIndex glyph))

/-- A cell as seen by `render_line` (fonts.c lines 370-386): its width
attribute `cell->attrs & WIDTH_MASK` and the identity of the `Font*` that
`font_for_cell` returns for it.  `font_for_cell` is a deterministic function
of the cell, and `render_line` only compares the returned pointers, so the
font is carried as an abstract identifier. -/
structure RLCell where
  width : Nat
  font : Nat
deriving Repr, DecidableEq

/-- The loop state of `render_line`, extended with the observable history:
`runs` records each `render_run(first, count, font)` call as the index of
the cell whose address is passed, the count, and the font; `processed`
records the indices of the cells that were not skipped (those for which
`font_for_cell` was called). -/
structure RLState where
  run_font : Option Nat
  first_cell_in_run : Nat
  prev_width : Nat
  runs : List (Nat × Nat × Nat)
  processed : List Nat
deriving Repr, DecidableEq

/-- One iteration of the `render_line` loop body (fonts.c lines 375-384) at
index `i`.  When a previous cell had width 2 the iteration is skipped and,
as in the source, `prev_width` is left unchanged.  On a font change with a
nonempty run, `render_run(cell, i - first_cell_in_run, run_font)` is
recorded: the pointer passed is `cell`, the cell at index `i` (fonts.c line
381). -/
def render_line_step (s : RLState) (i : Nat) (c : RLCell) : RLState :=
  if s.prev_width = 2 then s
  else
    let s1 := { s with prev_width := c.width, processed := s.processed ++ [i] }
    match s1.run_font with
    | some rf =>
        if c.font = rf then s1
        else
          let s2 :=
            if i > s1.first_cell_in_run then
              { s1 with runs := s1.runs ++ [(i, i - s1.first_cell_in_run, rf)] }
            else s1
          { s2 with run_font := some c.font, first_cell_in_run := i }
    | none =>
        { s1 with run_font := some c.font, first_cell_in_run := i }

/-- The `render_line` loop over all cells, with `i` the current index. -/
def render_line_go : RLState → Nat → List RLCell → RLState
  | s, _, [] => s
  | s, i, c :: cs => render_line_go (render_line_step s i c) (i + 1) cs

/-- `render_line` (fonts.c lines 370-386).  After the loop, the final flush
(line 385) emits `render_run(line->cells + first_cell_in_run,
i - first_cell_in_run, run_font)` with `i = line->xnum`. -/
def render_line (cells : List RLCell) : RLState :=
  let s := render_line_go
    { run_font := none, first_cell_in_run := 0, prev_width := 0,
      runs := [], processed := [] } 0 cells
  match s.run_font with
  | some rf =>
      if cells.length > s.first_cell_in_run then
        { s with runs := s.runs ++
            [(s.first_cell_in_run, cells.length - s.first_cell_in_run, rf)] }
      else s
  | none => s

/-- A `Font` as needed by `update_cell_metrics`: whether its `face` pointer
is non-NULL, and its sprite cache.  The sentinel fonts (`box_font`,
`missing_font`, `blank_font`) never have a face (fonts.c line 178 declares
them zeroed and `alloc_font` is never called on them). -/
structure MFont where
  has_face : Bool
  cache : Cache

/-- The global font roster and metrics state touched by
`update_cell_metrics` (fonts.c lines 178-191, 204-226). -/
structure FontState where
  medium_font : MFont
  bold_font : MFont
  italic_font : MFont
  bi_font : MFont
  fallback_fonts : List MFont
  symbol_map_fonts : List MFont
  box_font : MFont
  missing_font : MFont
  blank_font : MFont
  tracker : GPUSpriteTracker
  cell_width : Nat
  cell_height : Nat
  baseline : Nat
  underline_pos : Nat
  underline_thick : Nat

/-- The `CALL` macro of `update_cell_metrics` (fonts.c line 206) with
`set_size_for_face` assumed to succeed: fonts with a face get their sprite
cache cleared, fonts without a face are untouched. -/
def clearIfFace (f : MFont) : MFont :=
  if f.has_face then { f with cache := clear_sprite_map f.cache } else f

/-- `update_cell_metrics` (fonts.c lines 204-226), success path of the
external calls.  The rasterizer interactions are inputs: `new_cw`, `new_ch`,
`new_baseline`, `new_up`, `new_ut` are the values produced by
`cell_metrics` on the medium face followed by the two line-height
adjustments (an integer delta and a float factor, both computed outside this
model).  The function clears the cache of every font whose face is set
(medium/bold/italic/bi, the fallback array up to its first faceless slot,
and all symbol-map fonts), then validates the metrics exactly as the source
does, clamps the underline position, and calls `sprite_tracker_set_layout`.
`none` is the NULL return of the C function. -/
def update_cell_metrics (st : FontState)
    (new_cw new_ch new_baseline new_up new_ut : Nat) : Option FontState :=
  let st1 := { st with
    medium_font := clearIfFace st.medium_font,
    bold_font := clearIfFace st.bold_font,
    italic_font := clearIfFace st.italic_font,
    bi_font := clearIfFace st.bi_font,
    fallback_fonts :=
      (st.fallback_fonts.takeWhile (fun f : MFont => f.has_face)).map clearIfFace
        ++ st.fallback_fonts.dropWhile (fun f : MFont => f.has_face),
    symbol_map_fonts := st.symbol_map_fonts.map clearIfFace }
  if new_cw = 0 then none
  else if new_ch < 4 then none
  else if 1000 < new_ch then none
  else some { st1 with
    cell_width := new_cw, cell_height := new_ch, baseline := new_baseline,
    underline_pos := min (new_ch - 1) new_up, underline_thick := new_ut,
    tracker := sprite_tracker_set_layout st1.tracker new_cw new_ch }

/-- The load flags computed by `get_load_flags` (freetype.c lines 157-165),
recorded symbolically: `base` is the flag value passed in; the three Bools
record which FreeType flags the function ORs into it.  `hinting` and
`hintstyle` are C `int`. -/
structure LoadFlags where
  base : Nat
  target_normal : Bool
  target_light : Bool
  no_hinting : Bool
deriving Repr, DecidableEq

/-- `get_load_flags` (freetype.c lines 157-165):
`if (hinting) { if (hintstyle >= 3) flags |= FT_LOAD_TARGET_NORMAL;
else if (0 < hintstyle && hintstyle < 3) flags |= FT_LOAD_TARGET_LIGHT; }
else flags |= FT_LOAD_NO_HINTING;`. -/
def get_load_flags (hinting hintstyle : Int) (base : Nat) : LoadFlags :=
  if hinting ≠ 0 then
    if hintstyle ≥ 3 then
      { base := base, target_normal := true, target_light := false, no_hinting := false }
    else if 0 < hintstyle ∧ hintstyle < 3 then
      { base := base, target_normal := false, target_light := true, no_hinting := false }
    else
      { base := base, target_normal := false, target_light := false, no_hinting := false }
  else
    { base := base, target_normal := false, target_light := false, no_hinting := true }

/-- The `ProcessedBitmap` struct of freetype.c (lines 269-273); `buf` maps a
flat byte offset to the sample stored there. -/
structure ProcessedBitmap where
  buf : Nat → Nat
  start_x : Nat
  width : Nat
  stride : Nat
  rows : Nat

/-- The inner loop of `trim_borders` (freetype.c lines 282-284): column `x`
has text when some row holds a sample above intensity 200. -/
def column_has_text (bm : ProcessedBitmap) (x : Nat) : Bool :=
  (List.range bm.rows).any (fun y => bm.buf (x + y * bm.stride) > 200)

/-- The number of columns removed by the trimming loop of `trim_borders`
(freetype.c lines 281-286): starting at column `x - 1` (the first argument
is the current `x + 1`, so 0 encodes the loop guard `x > -1` failing), empty
columns are removed while `extra > 0`; the loop stops at the first column
with text. -/
def trimCount (bm : ProcessedBitmap) : Nat → Nat → Nat
  | 0, _ => 0
  | _ + 1, 0 => 0
  | x + 1, extra + 1 =>
      if column_has_text bm x then 0 else trimCount bm x extra + 1

/-- `trim_borders` (freetype.c lines 276-290): after the loop has removed
`t = trimCount` empty columns (decrementing both `width` and `extra`), the
remaining `extra - t` is written to `start_x` and also subtracted from
`width`.  In every call (from `render_bitmap`) `extra ≤ width`, so the
`size_t` subtractions are exact. -/
def trim_borders (bm : ProcessedBitmap) (extra : Nat) : ProcessedBitmap :=
  let t := trimCount bm bm.width extra
  let rem := extra - t
  { bm with width := (bm.width - t) - rem, start_x := rem }

/-- Which of the three overflow policies `render_bitmap` (freetype.c lines
293-316) takes once the glyph has been rasterized, as a function of the
rendered width, `max_width = cell_width * num_cells`, the cell width, the
italic flag, the `rescale` permission and the scalability of the face.
`trim extra` records the call `trim_borders(ans, extra)`; `rescale` is the
re-render branch (which invokes the rasterizer again and is external to
this model); `asis` returns the bitmap unchanged. -/
inductive RBAdjust
  | trim (extra : Nat)
  | rescale
  | asis
deriving Repr, DecidableEq

/-- The branch structure of `render_bitmap` after rasterization (freetype.c
lines 302-314). -/
def render_bitmap_adjust (width max_width cell_width : Nat)
    (italic rescale is_scalable : Bool) : RBAdjust :=
  if width > max_width then
    let extra := width - max_width
    if italic ∧ extra < cell_width / 2 then RBAdjust.trim extra
    else if rescale ∧ is_scalable ∧ extra > max 2 (cell_width / 3) then RBAdjust.rescale
    else RBAdjust.asis
  else RBAdjust.asis

/-- The inner (column) loop of the blit in `place_bitmap_in_cell`
(freetype.c lines 348-352): `for (sc = src_start_column, dc =
dest_start_column; sc < bm->width && dc < cell_width; sc++, dc++)` with body
`cell[dr * cell_width + dc] = (cell[dr * cell_width + dc] + buf[sr * stride
+ sc]) % 256`.  The first `Nat` argument is loop fuel: each iteration
increments `sc`, so `bm.width` steps always suffice and the fuel never cuts
the loop short when started at `bm.width`.  Returns the updated destination
and the list of flat indices written. -/
def blitCols (bm : ProcessedBitmap) (cell_width sr dr : Nat) :
    Nat → (Nat → Nat) → Nat → Nat → (Nat → Nat) × List Nat
  | 0, cell, _, _ => (cell, [])
  | fuel + 1, cell, sc, dc =>
      if sc < bm.width ∧ dc < cell_width then
        let pos := dr * cell_width + dc
        let v := (cell pos + bm.buf (sr * bm.stride + sc)) % 256
        let r := blitCols bm cell_width sr dr fuel
          (fun j => if j = pos then v else cell j) (sc + 1) (dc + 1)
        (r.1, pos :: r.2)
      else (cell, [])

/-- The outer (row) loop of the blit in `place_bitmap_in_cell` (freetype.c
line 347): `for (sr = src_start_row, dr = dest_start_row; sr < bm->rows &&
dr < cell_height; sr++, dr++)`.  Fuel as in `blitCols`; started at
`bm.rows` it never cuts the loop short. -/
def blitRows (bm : ProcessedBitmap) (cell_width cell_height ssc dsc : Nat) :
    Nat → (Nat → Nat) → Nat → Nat → (Nat → Nat) × List Nat
  | 0, cell, _, _ => (cell, [])
  | fuel + 1, cell, sr, dr =>
      if sr < bm.rows ∧ dr < cell_height then
        let rc := blitCols bm cell_width sr dr bm.width cell ssc dsc
        let rr := blitRows bm cell_width cell_height ssc dsc fuel rc.1 (sr + 1) (dr + 1)
        (rr.1, rc.2 ++ rr.2)
      else (cell, [])

/-- `place_bitmap_in_cell` (freetype.c lines 318-354).  `xoff` and `yoff`
are the already-truncated integer offsets `(ssize_t)(x_offset +
metrics->horiBearingX / 64.f)` and `(ssize_t)(y_offset +
metrics->horiBearingY / 64.f)`; they are quantified over all integers, which
covers every possible `ssize_t` value.  `size_t` additions and the
`baseline - yoff` subtraction are taken modulo `2 ^ 64` as in C; the guarded
subtractions on the destination start column are exact.  `src_start_row` is
0 in both branches of the source.  Returns the updated destination buffer
and the list of flat indices written. -/
def place_bitmap_in_cell (cell : Nat → Nat) (bm : ProcessedBitmap)
    (cell_width cell_height : Nat) (xoff yoff : Int) (baseline : Nat) :
    (Nat → Nat) × List Nat :=
  let scdc : Nat × Nat :=
    if xoff < 0 then ((bm.start_x + (-xoff).toNat) % U64, 0)
    else (bm.start_x, xoff.toNat)
  let dsc : Nat :=
    if scdc.2 > 0 ∧ (scdc.2 + bm.width) % U64 > cell_width then
      let extra := (scdc.2 + bm.width) % U64 - cell_width
      if extra > scdc.2 then 0 else scdc.2 - extra
    else scdc.2
  let dsr : Nat :=
    if yoff > 0 ∧ yoff.toNat > baseline then 0
    else (((baseline : Int) - yoff) % (U64 : Int)).toNat
  blitRows bm cell_width cell_height scdc.1 dsc bm.rows cell 0 dsr

/-! Concrete inputs used by the counterexamples, evaluations and witnesses. -/

/-- The tracker of the exhaustion scenario: `sprite_tracker_set_limits(16, 2)`
followed by `sprite_tracker_set_layout(8, 8)`, starting from the static
initializer.  Yields `xnum = 2`, `max_y = 2`, cursor `(0, 0, 0)`. -/
def tC1 : GPUSpriteTracker :=
  sprite_tracker_set_layout (sprite_tracker_set_limits sprite_tracker_init 16 2) 8 8

/-- A tracker state with `max_array_len = 65536`, one column and one row, and
`z = 65534`, about to wrap into `z = 65535`. -/
def tC2cex : GPUSpriteTracker :=
  { max_array_len := 65536, max_texture_size := 16, max_y := 1,
    x := 0, y := 0, z := 65534, xnum := 1, ynum := 1 }

/-- A small tracker state used to instantiate the amended increment theorem. -/
def tC2w : GPUSpriteTracker :=
  { max_array_len := 2, max_texture_size := 16, max_y := 2,
    x := 1, y := 1, z := 0, xnum := 2, ynum := 2 }

/-- A tracker whose texture limit (5) is smaller than the cell size used in
the layout call. -/
def tC7cex : GPUSpriteTracker :=
  { max_array_len := 1000, max_texture_size := 5, max_y := 100,
    x := 0, y := 0, z := 0, xnum := 0, ynum := 0 }

/-- A tracker with the default limits, used to instantiate the amended
layout-coherence theorem. -/
def tC7w : GPUSpriteTracker :=
  { max_array_len := 1000, max_texture_size := 1000, max_y := 100,
    x := 0, y := 0, z := 0, xnum := 0, ynum := 0 }

/-- A line of three cells: a wide cell (width 2) followed by two normal cells
(width 1), all mapped to the same font. -/
def cellsC3 : List RLCell := [{ width := 2, font := 7 }, { width := 1, font := 7 }, { width := 1, font := 7 }]

/-- A line of two width-1 cells mapped to two different fonts. -/
def cellsC4 : List RLCell := [{ width := 1, font := 0 }, { width := 1, font := 1 }]

/-- A filled sprite-cache entry, as left behind by a successful
`sprite_position_for` claim for glyph 3 at atlas slot `(1, 0, 0)`. -/
def filledSpC5 : SpritePosition :=
  { filled := true, rendered := true, is_second := false,
    x := 1, y := 0, z := 0, glyph := 3, extra_glyphs := 0 }

/-- A font-roster state in which both the medium font and the box font hold
one filled cache entry in bucket 3, the tracker cursor is away from the
origin, and the current cell height is 17. -/
def stC5 : FontState :=
  { medium_font := { has_face := true, cache := updateBucket emptyCache 3 [filledSpC5] },
    bold_font := { has_face := false, cache := emptyCache },
    italic_font := { has_face := false, cache := emptyCache },
    bi_font := { has_face := false, cache := emptyCache },
    fallback_fonts := [], symbol_map_fonts := [],
    box_font := { has_face := false, cache := updateBucket emptyCache 3 [filledSpC5] },
    missing_font := { has_face := false, cache := emptyCache },
    blank_font := { has_face := false, cache := emptyCache },
    tracker := { max_array_len := 1000, max_texture_size := 1000, max_y := 62,
                 x := 2, y := 1, z := 0, xnum := 125, ynum := 2 },
    cell_width := 8, cell_height := 17, baseline := 13,
    underline_pos := 15, underline_thick := 1 }

/-- An 11-column, 1-row bitmap in which every sample is 255, so no column is
empty in the sense of the trim loop. -/
def bmC9 : ProcessedBitmap :=
  { buf := fun _ => 255, start_x := 0, width := 11, stride := 11, rows := 1 }

/-- A 1x1 bitmap used to instantiate the composition-bounds theorem. -/
def bmC8w : ProcessedBitmap :=
  { buf := fun _ => 7, start_x := 0, width := 1, stride := 1, rows := 1 }

/-- Claim C1.  What the code actually does in the exhaustion scenario of the
claim: with `max_texture_size = 16`, `max_array_len = 2` and cell size 8x8,
nine `sprite_position_for` calls with nine distinct glyphs all return a
claimed slot.  The first eight return `(0,0,0) .. (1,1,1)`; the increment
inside the eighth call writes atlas-full (2) to the error out-parameter, but
the call still returns the slot `(1,1,1)`; the ninth call returns the slot
`(0,0,2)` with the error out-parameter untouched (0).  The caller therefore
never observes an atlas-full failure, contrary to the claim that the ninth
allocation returns atlas-full. -/
theorem C1_eval :
    (runAllocs emptyCache tC1 [0, 1, 2, 3, 4, 5, 6, 7, 8]).2.2 =
      [((0, 0, 0), 0), ((1, 0, 0), 0), ((0, 1, 0), 0), ((1, 1, 0), 0),
        ((0, 0, 1), 0), ((1, 0, 1), 0), ((0, 1, 1), 0), ((1, 1, 1), 2),
        ((0, 0, 2), 0)] ∧
    tC1.xnum = 2 ∧ tC1.max_y = 2 ∧ tC1.max_array_len = 2 := by
  decide

/-- Claim C2, counterexample.  The state `tC2cex` satisfies the claim
hypotheses `x < xnum` and `y < max_y`, yet `do_increment` signals atlas-full
although the new `z` (65535) is strictly below `min(65536, max_array_len)`:
the code compares against `min(UINT16_MAX, max_array_len) = 65535`, not
65536. -/
theorem C2_counterexample :
    tC2cex.x < tC2cex.xnum ∧ tC2cex.y < tC2cex.max_y ∧
    (do_increment tC2cex).2 = 2 ∧
    (do_increment tC2cex).1.z < min 65536 tC2cex.max_array_len := by
  decide

/-- Claim C2, amended.  For every tracker state with `x < xnum` and
`y < max_y` whose fields are in machine range (`xnum < 2^32`,
`y + 2 < 2^32`, `z + 1 < 2^32`, so no unsigned wraparound occurs),
`do_increment` advances the cursor as the claim states, except that
atlas-full is signalled exactly when the new `z` reaches
`min(65535, max_array_len)` - the bound is `UINT16_MAX = 65535`, not
65536. -/
theorem C2_amended (t : GPUSpriteTracker)
    (hx : t.x < t.xnum) (hy : t.y < t.max_y) (hxnum : t.xnum < U32)
    (hy2 : t.y + 2 < U32) (hz1 : t.z + 1 < U32) :
    do_increment t =
      if t.x + 1 = t.xnum then
        if t.y + 1 = t.max_y then
          ({ t with
              x := 0, y := 0, z := t.z + 1,
              ynum := min (max t.ynum (t.y + 2)) t.max_y },
            if t.z + 1 ≥ min 65535 t.max_array_len then 2 else 0)
        else
          ({ t with
              x := 0, y := t.y + 1,
              ynum := min (max t.ynum (t.y + 2)) t.max_y }, 0)
      else ({ t with x := t.x + 1 }, 0) := by
  have e1 : inc32 t.x = t.x + 1 := Nat.mod_eq_of_lt (by omega)
  have e2 : inc32 t.y = t.y + 1 := Nat.mod_eq_of_lt (by omega)
  have e3 : inc32 (t.y + 1) = t.y + 2 := Nat.mod_eq_of_lt (by omega)
  have e4 : inc32 t.z = t.z + 1 := Nat.mod_eq_of_lt (by omega)
  unfold do_increment
  rw [e1, e2, e3, e4]
  unfold UINT16_MAX
  by_cases hcx : t.x + 1 ≥ t.xnum
  · have hcx' : t.x + 1 = t.xnum := by omega
    rw [if_pos hcx, if_pos hcx']
    by_cases hcy : t.y + 1 ≥ t.max_y
    · have hcy' : t.y + 1 = t.max_y := by omega
      rw [if_pos hcy, if_pos hcy']
    · have hcy' : ¬t.y + 1 = t.max_y := by omega
      rw [if_neg hcy, if_neg hcy']
  · have hcx' : ¬t.x + 1 = t.xnum := by omega
    rw [if_neg hcx, if_neg hcx']

/-- Claim C2, witness for the amended theorem at the concrete state
`tC2w`. -/
theorem C2_amended_witness :
    do_increment tC2w = ({ tC2w with x := 0, y := 0, z := 1, ynum := 2 }, 0) :=
  (C2_amended tC2w (by decide) (by decide) (by decide)
    (by decide) (by decide)).trans (by decide)

/-- Claim C3.  On the line `cellsC3` (widths 2, 1, 1; one font), the code
processes only cell 0: cell 1 is skipped (its predecessor has width 2), but
cell 2 is skipped as well, even though its immediate predecessor, cell 1,
has width 1 - the loop never resets `prev_width` after a skip, so the claim
that every cell whose predecessor has width 0 or 1 is processed normally
fails. -/
theorem C3_eval :
    (render_line cellsC3).processed = [0] ∧
    (cellsC3.getD 1 { width := 0, font := 0 }).width = 1 ∧
    cellsC3.length = 3 := by
  decide

/-- Claim C4.  On the line `cellsC4` (two width-1 cells with different
fonts), the font changes at index 1 with a nonempty run starting at
`first_cell_in_run = 0`; the code calls `render_run` with the cell at index
1 (the recorded pointer index of the first emitted run) and count 1, not
with the cell at index 0 as the claim states: fonts.c line 381 passes
`cell`, the cursor of the new run, instead of
`line->cells + first_cell_in_run`. -/
theorem C4_eval :
    (render_line cellsC4).runs = [(1, 1, 0), (1, 1, 1)] ∧
    cellsC4.length = 2 := by
  decide

/-- Claim C5.  A successful `update_cell_metrics` call that changes the cell
height from 17 to 16 clears the medium font cache and resets the tracker
cursor to `(0, 0, 0)`, but leaves the filled entry in the box font cache
untouched: the clearing loop only visits fonts whose `face` is non-NULL, and
the box font never has a face, so the claim that every cache (including the
box font) reports `filled = false` fails. -/
theorem C5_eval :
    (update_cell_metrics stC5 8 16 12 14 1).map
        (fun s => ((s.box_font.cache 3).map SpritePosition.filled,
          (s.medium_font.cache 3).map SpritePosition.filled,
          (s.tracker.x, s.tracker.y, s.tracker.z))) =
      some ([true], [false], (0, 0, 0)) ∧
    stC5.cell_height = 17 := by
  decide

/-- Claim C7, counterexample.  With `max_texture_size = 5` and positive cell
width 10, `sprite_tracker_set_layout` clamps `xnum` up to 1, so
`xnum * cell_width = 10` exceeds the texture limit: the claim fails for
cell sizes larger than the texture. -/
theorem C7_counterexample :
    0 < 10 ∧
    (sprite_tracker_set_layout tC7cex 10 10).xnum * 10 > tC7cex.max_texture_size := by
  decide

/-- Claim C7, amended.  For positive cell sizes that do not exceed the
texture limit (`w ≤ max_texture_size` and `h ≤ max_texture_size`), the
layout computed by `sprite_tracker_set_layout` satisfies
`xnum * w ≤ max_texture_size` and `max_y * h ≤ max_texture_size`. -/
theorem C7_amended (t : GPUSpriteTracker) (w h : Nat) (hw : 0 < w) (hh : 0 < h)
    (hwm : w ≤ t.max_texture_size) (hhm : h ≤ t.max_texture_size) :
    (sprite_tracker_set_layout t w h).xnum * w ≤ t.max_texture_size ∧
    (sprite_tracker_set_layout t w h).max_y * h ≤ t.max_texture_size := by
  constructor
  · have h1 : max 1 (t.max_texture_size / w) = t.max_texture_size / w :=
      max_eq_right ((Nat.one_le_div_iff hw).mpr hwm)
    calc (sprite_tracker_set_layout t w h).xnum * w
        ≤ t.max_texture_size / w * w := by
          simp only [sprite_tracker_set_layout, h1]
          exact Nat.mul_le_mul_right w (min_le_left _ _)
      _ ≤ t.max_texture_size := Nat.div_mul_le_self _ _
  · have h1 : max 1 (t.max_texture_size / h) = t.max_texture_size / h :=
      max_eq_right ((Nat.one_le_div_iff hh).mpr hhm)
    calc (sprite_tracker_set_layout t w h).max_y * h
        ≤ t.max_texture_size / h * h := by
          simp only [sprite_tracker_set_layout, h1]
          exact Nat.mul_le_mul_right h (min_le_left _ _)
      _ ≤ t.max_texture_size := Nat.div_mul_le_self _ _

/-- Claim C7, witness for the amended theorem: cell size 8x16 under the
default texture limit 1000. -/
theorem C7_amended_witness :
    (sprite_tracker_set_layout tC7w 8 16).xnum * 8 ≤ tC7w.max_texture_size ∧
    (sprite_tracker_set_layout tC7w 8 16).max_y * 16 ≤ tC7w.max_texture_size :=
  C7_amended tC7w 8 16 (by decide) (by decide) (by decide) (by decide)

/-- Claim C10, counterexample.  With `hinting = 0` and `hintstyle = 3`, the
claim requires the NORMAL target (since `hintstyle ≥ 3`), but the code takes
the `else` branch of `if (hinting)` and sets only `FT_LOAD_NO_HINTING`. -/
theorem C10_counterexample :
    (3 : Int) ≥ 3 ∧ (get_load_flags 0 3 0).target_normal = false ∧
    (get_load_flags 0 3 0).no_hinting = true := by
  decide

/-- Claim C10, amended.  The load flags include the NORMAL target exactly
when `hinting ≠ 0` and `hintstyle ≥ 3`, the LIGHT target exactly when
`hinting ≠ 0` and `0 < hintstyle < 3`, and NO_HINTING exactly when
`hinting = 0`; when `hinting ≠ 0` and neither target applies, no
hinting-related flag at all is added. -/
theorem C10_amended (hinting hintstyle : Int) (base : Nat) :
    ((get_load_flags hinting hintstyle base).target_normal = true ↔
      (hinting ≠ 0 ∧ hintstyle ≥ 3)) ∧
    ((get_load_flags hinting hintstyle base).target_light = true ↔
      (hinting ≠ 0 ∧ 0 < hintstyle ∧ hintstyle < 3)) ∧
    ((get_load_flags hinting hintstyle base).no_hinting = true ↔ hinting = 0) := by
  unfold get_load_flags
  split_ifs with h1 h2 h3 <;> simp_all

/-- Every `spfWalk` call leaves its bucket in a state in which the walk for
the same key reaches a filled matching entry carrying the returned
coordinates. -/
theorem spfWalk_hits (glyph extra : Nat) (sec : Bool) (t : GPUSpriteTracker)
    (b : List SpritePosition) :
    hitsAt glyph extra sec (spfWalk glyph extra sec t b).2.1
      (spfWalk glyph extra sec t b).1 := by
  induction b with
  | nil => simp [spfWalk, hitsAt, claimSlot, spMatches]
  | cons s rest ih =>
      by_cases hf : s.filled = true
      · by_cases hm : spMatches s glyph extra sec = true
        · simp [spfWalk, hf, hm, hitsAt]
        · have hm' : spMatches s glyph extra sec = false := by
            simpa using hm
          simp only [spfWalk, hf, hm', if_true, if_false, Bool.false_eq_true,
            ite_true, ite_false]
          exact ⟨hf, Or.inr ⟨hm', ih⟩⟩
      · have hf' : s.filled = false := by simpa using hf
        simp [spfWalk, hf', hitsAt, claimSlot, spMatches]

/-- If the walk for a key reaches a filled matching entry with coordinates
`p`, then `spfWalk` for that key is a pure cache hit: it returns `p` and
changes nothing. -/
theorem hitsAt_walk (glyph extra : Nat) (sec : Bool) (p : Nat × Nat × Nat)
    (b : List SpritePosition) (h : hitsAt glyph extra sec p b)
    (t : GPUSpriteTracker) :
    spfWalk glyph extra sec t b = (b, p, t, 0) := by
  induction b with
  | nil => exact absurd h (by simp [hitsAt])
  | cons s rest ih =>
      obtain ⟨hf, hor⟩ := h
      rcases hor with ⟨hm, hp⟩ | ⟨hm, hrest⟩
      · simp [spfWalk, hf, hm, hp]
      · simp [spfWalk, hf, hm, ih hrest]

/-- A walk for any other key preserves the hit for a key: it modifies only
unfilled entries strictly beyond the hit entry, or appends at the end. -/
theorem hitsAt_preserved (glyph extra : Nat) (sec : Bool) (p : Nat × Nat × Nat)
    (g' e' : Nat) (sec' : Bool) (t : GPUSpriteTracker)
    (b : List SpritePosition) (h : hitsAt glyph extra sec p b) :
    hitsAt glyph extra sec p (spfWalk g' e' sec' t b).1 := by
  induction b with
  | nil => exact absurd h (by simp [hitsAt])
  | cons s rest ih =>
      obtain ⟨hf, hor⟩ := h
      by_cases hm' : spMatches s g' e' sec' = true
      · simp only [spfWalk, hf, hm', ite_true]
        exact ⟨hf, hor⟩
      · have hm'' : spMatches s g' e' sec' = false := by simpa using hm'
        simp only [spfWalk, hf, hm'', Bool.false_eq_true, ite_true, ite_false]
        rcases hor with ⟨hm, hp⟩ | ⟨hm, hrest⟩
        · exact ⟨hf, Or.inl ⟨hm, hp⟩⟩
        · exact ⟨hf, Or.inr ⟨hm, ih hrest⟩⟩

/-- After any `sprite_position_for` call, the cache holds a hit for the
requested key at the returned coordinates. -/
theorem spf_establishes (c : Cache) (glyph extra : Nat) (sec : Bool)
    (t : GPUSpriteTracker) :
    cacheHits glyph extra sec (sprite_position_for c glyph extra sec t).2.1
      (sprite_position_for c glyph extra sec t).1 := by
  have h := spfWalk_hits glyph extra sec t (c (spIndex glyph))
  simpa [sprite_position_for, cacheHits, updateBucket] using h

/-- A `sprite_position_for` call for any key preserves an established hit
for any other key. -/
theorem cacheHits_preserved (glyph extra : Nat) (sec : Bool)
    (p : Nat × Nat × Nat) (c : Cache) (g' e' : Nat) (sec' : Bool)
    (t : GPUSpriteTracker) (h : cacheHits glyph extra sec p c) :
    cacheHits glyph extra sec p (sprite_position_for c g' e' sec' t).1 := by
  unfold cacheHits at h ⊢
  by_cases hidx : spIndex glyph = spIndex g'
  · have hb : (sprite_position_for c g' e' sec' t).1 (spIndex glyph)
        = (spfWalk g' e' sec' t (c (spIndex g'))).1 := by
      simp [sprite_position_for, updateBucket, hidx]
    rw [hb, ← hidx]
    exact hitsAt_preserved glyph extra sec p g' e' sec' t (c (spIndex glyph)) h
  · have hb : (sprite_position_for c g' e' sec' t).1 (spIndex glyph)
        = c (spIndex glyph) := by
      simp [sprite_position_for, updateBucket, hidx]
    rw [hb]
    exact h

/-- Any sequence of intervening `sprite_position_for` calls preserves an
established hit. -/
theorem spf_run_preserves (glyph extra : Nat) (sec : Bool)
    (p : Nat × Nat × Nat) :
    ∀ (ks : List (Nat × Nat × Bool)) (c : Cache) (t : GPUSpriteTracker),
      cacheHits glyph extra sec p c →
      cacheHits glyph extra sec p (spf_run c t ks).1 := by
  intro ks
  induction ks with
  | nil => intro c t h; simpa [spf_run] using h
  | cons k ks ih =>
      intro c t h
      simp only [spf_run]
      exact ih _ _ (cacheHits_preserved glyph extra sec p c k.1 k.2.1 k.2.2 t h)

/-- A call on a cache holding a hit for the key returns the stored
coordinates. -/
theorem cacheHits_lookup (glyph extra : Nat) (sec : Bool)
    (p : Nat × Nat × Nat) (c : Cache) (t : GPUSpriteTracker)
    (h : cacheHits glyph extra sec p c) :
    (sprite_position_for c glyph extra sec t).2.1 = p := by
  have hw := hitsAt_walk glyph extra sec p (c (spIndex glyph)) h t
  simp [sprite_position_for, hw]

/-- Claim C6.  Cache idempotence: for any font cache, any tracker state and
any key `(glyph, extra_glyphs, is_second)`, a later `sprite_position_for`
call with the same key - after arbitrarily many intervening calls with
arbitrary keys on the same font, and whatever the tracker state has become
in the meantime - returns exactly the `(x, y, z)` that the first call
returned.  This holds for the lifetime of the cache, that is, as long as no
clear or free intervenes; intervening calls on other fonts touch only their
own caches and the shared tracker and are covered by the arbitrary final
tracker `t2`. -/
theorem C6_cache_idempotent (c : Cache) (t t2 : GPUSpriteTracker)
    (glyph extra_glyphs : Nat) (is_second : Bool)
    (ks : List (Nat × Nat × Bool)) :
    (sprite_position_for
        (spf_run (sprite_position_for c glyph extra_glyphs is_second t).1
          (sprite_position_for c glyph extra_glyphs is_second t).2.2.1 ks).1
        glyph extra_glyphs is_second t2).2.1
      = (sprite_position_for c glyph extra_glyphs is_second t).2.1 :=
  cacheHits_lookup glyph extra_glyphs is_second _ _ t2
    (spf_run_preserves glyph extra_glyphs is_second _ ks _ _
      (spf_establishes c glyph extra_glyphs is_second t))

/-- Every index written by the column loop lies in row `dr`, at a column
below `cell_width`. -/
theorem blitCols_writes (bm : ProcessedBitmap) (W sr dr : Nat) :
    ∀ (fuel sc dc : Nat) (cell : Nat → Nat) (i : Nat),
      i ∈ (blitCols bm W sr dr fuel cell sc dc).2 →
      ∃ dc', dc' < W ∧ i = dr * W + dc' := by
  intro fuel
  induction fuel with
  | zero => intro sc dc cell i hi; simp [blitCols] at hi
  | succ n ih =>
      intro sc dc cell i hi
      by_cases h : sc < bm.width ∧ dc < W
      · simp only [blitCols, if_pos h] at hi
        rcases List.mem_cons.mp hi with h1 | h2
        · exact ⟨dc, h.2, h1⟩
        · exact ih _ _ _ i h2
      · simp [blitCols, h] at hi

/-- The column loop leaves every index outside row `dr` (or at a column not
below `cell_width`) unchanged. -/
theorem blitCols_frame (bm : ProcessedBitmap) (W sr dr : Nat) :
    ∀ (fuel sc dc : Nat) (cell : Nat → Nat) (j : Nat),
      (∀ dc', dc' < W → j ≠ dr * W + dc') →
      (blitCols bm W sr dr fuel cell sc dc).1 j = cell j := by
  intro fuel
  induction fuel with
  | zero => intro sc dc cell j hj; simp [blitCols]
  | succ n ih =>
      intro sc dc cell j hj
      by_cases h : sc < bm.width ∧ dc < W
      · simp only [blitCols, if_pos h]
        rw [ih _ _ _ j hj]
        simp [hj dc h.2]
      · simp [blitCols, h]

/-- Every index written by the row loop is of the form `dr * W + dc` with
`dr < cell_height` and `dc < W`. -/
theorem blitRows_writes (bm : ProcessedBitmap) (W H ssc dsc : Nat) :
    ∀ (fuel : Nat) (cell : Nat → Nat) (sr dr : Nat) (i : Nat),
      i ∈ (blitRows bm W H ssc dsc fuel cell sr dr).2 →
      ∃ dr' dc', dr' < H ∧ dc' < W ∧ i = dr' * W + dc' := by
  intro fuel
  induction fuel with
  | zero => intro cell sr dr i hi; simp [blitRows] at hi
  | succ n ih =>
      intro cell sr dr i hi
      by_cases h : sr < bm.rows ∧ dr < H
      · simp only [blitRows, if_pos h] at hi
        rcases List.mem_append.mp hi with h1 | h2
        · obtain ⟨dc', hdc, hip⟩ :=
            blitCols_writes bm W sr dr bm.width ssc dsc cell i h1
          exact ⟨dr, dc', h.2, hdc, hip⟩
        · exact ih _ _ _ i h2
      · simp [blitRows, h] at hi

/-- The row loop leaves every index outside the `H x W` grid unchanged. -/
theorem blitRows_frame (bm : ProcessedBitmap) (W H ssc dsc : Nat) :
    ∀ (fuel : Nat) (cell : Nat → Nat) (sr dr : Nat) (j : Nat),
      (∀ dr' dc', dr' < H → dc' < W → j ≠ dr' * W + dc') →
      (blitRows bm W H ssc dsc fuel cell sr dr).1 j = cell j := by
  intro fuel
  induction fuel with
  | zero => intro cell sr dr j hj; simp [blitRows]
  | succ n ih =>
      intro cell sr dr j hj
      by_cases h : sr < bm.rows ∧ dr < H
      · simp only [blitRows, if_pos h]
        rw [ih _ _ _ j hj]
        exact blitCols_frame bm W sr dr bm.width ssc dsc cell j
          (fun dc' hdc => hj dr dc' h.2 hdc)
      · simp [blitRows, h]

/-- Claim C8.  Composition bounds: for every destination buffer, bitmap,
destination size `cell_width x cell_height`, integer offsets, and baseline,
`place_bitmap_in_cell` writes only to destination indices
`dr * cell_width + dc` with `dr < cell_height` and `dc < cell_width`, and
every index not of that form keeps its previous value - it never writes
outside the destination buffer of `cell_width * cell_height` bytes. -/
theorem C8_place_in_bounds (cell : Nat → Nat) (bm : ProcessedBitmap)
    (cell_width cell_height : Nat) (xoff yoff : Int) (baseline : Nat) :
    (∀ i, i ∈ (place_bitmap_in_cell cell bm cell_width cell_height xoff yoff baseline).2 →
        ∃ dr dc, dr < cell_height ∧ dc < cell_width ∧ i = dr * cell_width + dc) ∧
    (∀ j, (∀ dr dc, dr < cell_height → dc < cell_width → j ≠ dr * cell_width + dc) →
        (place_bitmap_in_cell cell bm cell_width cell_height xoff yoff baseline).1 j = cell j) := by
  constructor
  · intro i hi
    simp only [place_bitmap_in_cell] at hi
    exact blitRows_writes bm cell_width cell_height _ _ bm.rows cell 0 _ i hi
  · intro j hj
    simp only [place_bitmap_in_cell]
    exact blitRows_frame bm cell_width cell_height _ _ bm.rows cell 0 _ j hj

/-- Claim C8, witness: a concrete 1x1 blit into a 2x2 destination writes the
single index 2, which lies inside the grid. -/
theorem C8_place_in_bounds_witness :
    ∃ dr dc, dr < 2 ∧ dc < 2 ∧ (2 : Nat) = dr * 2 + dc :=
  (C8_place_in_bounds (fun _ => 0) bmC8w 2 2 0 0 1).1 2 (by decide)

/-- The trim loop never removes more columns than `extra`. -/
theorem trimCount_le (bm : ProcessedBitmap) :
    ∀ (x extra : Nat), trimCount bm x extra ≤ extra := by
  intro x
  induction x with
  | zero => intro extra; simp [trimCount]
  | succ x ih =>
      intro extra
      cases extra with
      | zero => simp [trimCount]
      | succ e =>
          by_cases hc : column_has_text bm x = true
          · simp [trimCount, hc]
          · have hc' : column_has_text bm x = false := by simpa using hc
            simp only [trimCount, hc', Bool.false_eq_true, if_false, ite_false]
            exact Nat.succ_le_succ (ih e)

/-- Every column removed by the trim loop is empty: no sample above
intensity 200. -/
theorem trimCount_empty (bm : ProcessedBitmap) :
    ∀ (x extra j : Nat), j < trimCount bm x extra →
      column_has_text bm (x - 1 - j) = false := by
  intro x
  induction x with
  | zero => intro extra j hj; simp [trimCount] at hj
  | succ x ih =>
      intro extra j hj
      cases extra with
      | zero => simp [trimCount] at hj
      | succ e =>
          by_cases hc : column_has_text bm x = true
          · simp [trimCount, hc] at hj
          · have hc' : column_has_text bm x = false := by simpa using hc
            simp only [trimCount, hc', Bool.false_eq_true, if_false, ite_false] at hj
            cases j with
            | zero => simpa using hc'
            | succ j =>
                have hj' : j < trimCount bm x e := by omega
                have heq : x + 1 - 1 - (j + 1) = x - 1 - j := by omega
                rw [heq]
                exact ih e j hj'

/-- Claim C9, counterexample.  On `bmC9` (11 columns, every sample 255) with
`cell_width = 8` and one cell, `render_bitmap` takes the trim branch with
`extra = 3`; no column is empty, so the trim loop removes zero columns, yet
the width still shrinks (from 11 to 8): the width does not decrease by
exactly the number of trimmed columns. -/
theorem C9_counterexample :
    render_bitmap_adjust bmC9.width (8 * 1) 8 true true true = RBAdjust.trim 3 ∧
    trimCount bmC9 bmC9.width 3 = 0 ∧
    (trim_borders bmC9 3).width ≠ bmC9.width - trimCount bmC9 bmC9.width 3 := by
  decide

/-- Claim C9, amended.  When the rendered width exceeds
`max_width = cell_width * num_cells` and the glyph is italic with
`extra = width - max_width < cell_width / 2`, `render_bitmap` calls
`trim_borders` with that `extra`; the loop removes `t ≤ extra` right-hand
empty columns (each removed column has no sample above 200), `start_x`
becomes the remaining `extra - t`, and the width decreases by `extra` in
total (the trimmed columns plus the remainder absorbed by advancing the
source origin), not by `t` alone. -/
theorem C9_amended (bm : ProcessedBitmap) (cell_width num_cells : Nat)
    (rescale is_scalable : Bool)
    (h1 : cell_width * num_cells < bm.width)
    (h2 : bm.width - cell_width * num_cells < cell_width / 2) :
    render_bitmap_adjust bm.width (cell_width * num_cells) cell_width true rescale is_scalable
        = RBAdjust.trim (bm.width - cell_width * num_cells) ∧
    (trim_borders bm (bm.width - cell_width * num_cells)).width
        = bm.width - (bm.width - cell_width * num_cells) ∧
    (trim_borders bm (bm.width - cell_width * num_cells)).start_x
        = (bm.width - cell_width * num_cells)
            - trimCount bm bm.width (bm.width - cell_width * num_cells) ∧
    trimCount bm bm.width (bm.width - cell_width * num_cells)
        ≤ bm.width - cell_width * num_cells ∧
    (∀ j, j < trimCount bm bm.width (bm.width - cell_width * num_cells) →
        column_has_text bm (bm.width - 1 - j) = false) := by
  refine ⟨?_, ?_, ?_, trimCount_le bm _ _, fun j hj => trimCount_empty bm _ _ j hj⟩
  · simp [render_bitmap_adjust, h1, h2]
  · have ht := trimCount_le bm bm.width (bm.width - cell_width * num_cells)
    simp only [trim_borders]
    omega
  · simp [trim_borders]

/-- Claim C9, witness for the amended theorem at the all-opaque bitmap
`bmC9` with cell width 8 and one cell. -/
theorem C9_amended_witness :
    render_bitmap_adjust bmC9.width (8 * 1) 8 true true true
        = RBAdjust.trim (bmC9.width - 8 * 1) ∧
    (trim_borders bmC9 (bmC9.width - 8 * 1)).width = bmC9.width - (bmC9.width - 8 * 1) ∧
    (trim_borders bmC9 (bmC9.width - 8 * 1)).start_x
        = (bmC9.width - 8 * 1) - trimCount bmC9 bmC9.width (bmC9.width - 8 * 1) ∧
    trimCount bmC9 bmC9.width (bmC9.width - 8 * 1) ≤ bmC9.width - 8 * 1 ∧
    (∀ j, j < trimCount bmC9 bmC9.width (bmC9.width - 8 * 1) →
        column_has_text bmC9 (bmC9.width - 1 - j) = false) :=
  C9_amended bmC9 8 1 true true (by decide) (by decide)

end Kitty
